import Mathlib

/-!
Verification development for the LIVISI synchronization coordinator
(`custom_components/livisi/coordinator.py`).

The coordinator's methods are shallowly embedded as pure Lean functions.
External collaborators (the vendor HTTP client `AioLivisi`, the websocket
transport, the host dispatcher and event bus) are modelled as explicit
oracle inputs; their observable side effects (dispatcher publishes, host
bus events, websocket connect calls) are reified into an `Effect` trace.
Python exceptions are modelled with `Except` over an explicit exception
type; Python `None` is `Option.none`; Python dicts are modelled either as
association lists (for payloads coming from JSON) or as functions
`String → Option _` (for the coordinator's own mutable mappings).
-/

/-- A JSON-ish payload value as carried by events and dispatcher publishes. -/
inductive Value where
  | bool (b : Bool)
  | int (n : Int)
  | str (s : String)
deriving DecidableEq, Repr

/-- Python `dict.get(key)` on an association list: first binding wins
(keys coming from JSON objects are unique). -/
def dictGet (m : List (String × Value)) (k : String) : Option Value :=
  match m with
  | [] => none
  | (k1, v) :: rest => if k1 = k then some v else dictGet rest k

/-- Python `dict.get(key, default)` on an association list. -/
def dictGetD (m : List (String × Value)) (k : String) (d : Value) : Value :=
  (dictGet m k).getD d

/-- A device record as returned by the vendor client's `get_devices`:
`{id, capabilities, location}` (absent `capabilities` is the empty list,
absent `location` is `none`). -/
structure Device where
  id : String
  capabilities : List String
  location : Option String
deriving DecidableEq, Repr

/-- Python exceptions relevant to the coordinator. `updateFailed` is
Home Assistant's `UpdateFailed`; `otherExc` stands for any unrelated
exception, tagged by a code so distinct exceptions can be told apart. -/
inductive PyExc where
  | tokenExpired
  | clientConnectorError
  | updateFailed (msg : String)
  | otherExc (code : Nat)
deriving DecidableEq, Repr

/-- Modelled from the spec: the `AVATAR` controller-type constant from the
missing `const` module ("avatar variant" of the controller). -/
def AVATAR : String := "Avatar"

/-- Modelled from the spec: the avatar-variant network port constant
(`AVATAR_PORT` in the missing `const` module). -/
def AVATAR_PORT : Nat := 9090

/-- Modelled from the spec: the classic-variant network port constant
(`CLASSIC_PORT` in the missing `const` module). -/
def CLASSIC_PORT : Nat := 8080

/-- Modelled from the spec: host-level event kind "button pressed"
(`EVENT_BUTTON_PRESSED` in the missing `const` module; the spec's
end-to-end example names it "button_pressed"). -/
def EVENT_BUTTON_PRESSED : String := "button_pressed"

/-- Modelled from the spec: host-level event kind "motion detected"
(`EVENT_MOTION_DETECTED` in the missing `const` module). -/
def EVENT_MOTION_DETECTED : String := "motion_detected"

/-- Modelled from the spec: the dispatcher topic stem for state changes
(`LIVISI_STATE_CHANGE` in the missing `const` module). -/
def LIVISI_STATE_CHANGE : String := "livisi_state_change"

/-- Modelled from the spec: the dispatcher topic stem for reachability
changes (`LIVISI_REACHABILITY_CHANGE` in the missing `const` module). -/
def LIVISI_REACHABILITY_CHANGE : String := "livisi_reachability_change"

/-- Modelled from the spec: stream event type tag for button presses
(`EVENT_BUTTON_PRESSED` in the missing `aiolivisi.const` module). -/
def LIVISI_EVENT_BUTTON_PRESSED : String := "ButtonPressed"

/-- Modelled from the spec: stream event type tag for motion
(`EVENT_MOTION_DETECTED` in the missing `aiolivisi.const` module). -/
def LIVISI_EVENT_MOTION_DETECTED : String := "MotionDetected"

/-- Modelled from the spec: stream event type tag for state changes
(`EVENT_STATE_CHANGED` in the missing `aiolivisi.const` module). -/
def LIVISI_EVENT_STATE_CHANGED : String := "StateChanged"

/-- The coordinator's own mutable state (`LivisiDataUpdateCoordinator`'s
fields). `data` is the device snapshot stored by the host scheduler's
`DataUpdateCoordinator` base class on a successful refresh. -/
structure LivisiCoordinator where
  devices : List String
  capability_to_device : String → Option String
  rooms : String → Option String
  serial_number : String
  controller_type : String
  is_avatar : Bool
  port : Nat
  data : List Device

/-- The freshly-constructed coordinator: empty registries
(`__init__` initializes `devices`, `capability_to_device`, `rooms` empty,
strings empty, `is_avatar` false, `port` 0). -/
def initCoordinator : LivisiCoordinator :=
  { devices := []
    capability_to_device := fun _ => none
    rooms := fun _ => none
    serial_number := ""
    controller_type := ""
    is_avatar := false
    port := 0
    data := [] }

/-- Python dict assignment `m[k] = v` on a function-modelled dict. -/
def dictInsert (m : String → Option String) (k v : String) :
    String → Option String :=
  fun x => if x = k then some v else m x

/-- The capability-index rebuild loop in `async_get_devices`:
`for device in devices: for capability_id in device.get("capabilities", []):
capability_mapping[capability_id] = device["id"]`. -/
def capabilityMapping (devices : List Device) : String → Option String :=
  devices.foldl
    (fun m device =>
      device.capabilities.foldl (fun m c => dictInsert m c device.id) m)
    (fun _ => none)

/-- `async_get_devices`: fetch the device list (the vendor-client call is an
oracle argument), rebuild the capability index from scratch, return the
list. On a fetch failure nothing after the fetch runs. -/
def async_get_devices (co : LivisiCoordinator)
    (fetch : Except PyExc (List Device)) :
    Except PyExc (List Device) × LivisiCoordinator :=
  match fetch with
  | .error e => (.error e, co)
  | .ok devices =>
      (.ok devices, { co with capability_to_device := capabilityMapping devices })

/-- Spec-words version of the index entry for capability `c`: the id of the
last device in the snapshot that declares `c` ("each mapped to its declared
device id", "last-writer-wins"). Used only to compare with
`capabilityMapping`, which is translated from the source loop. -/
def lastDeclarer (devices : List Device) (c : String) : Option String :=
  devices.foldl
    (fun acc device => if c ∈ device.capabilities then some device.id else acc)
    none

lemma capsFold_apply (caps : List String) (i : String)
    (m : String → Option String) (x : String) :
    (caps.foldl (fun m c => dictInsert m c i) m) x =
      if x ∈ caps then some i else m x := by
  induction caps generalizing m with
  | nil => simp
  | cons c rest ih =>
      simp only [List.foldl_cons, List.mem_cons, ih, dictInsert]
      by_cases hx : x ∈ rest
      · simp [hx]
      · by_cases hc : x = c <;> simp [hx, hc]

lemma capabilityMapping_foldl (devices : List Device)
    (m : String → Option String) (acc : Option String) (x : String)
    (hma : m x = acc) :
    (devices.foldl
      (fun m device =>
        device.capabilities.foldl (fun m c => dictInsert m c device.id) m)
      m) x =
    devices.foldl
      (fun acc device =>
        if x ∈ device.capabilities then some device.id else acc)
      acc := by
  induction devices generalizing m acc with
  | nil => simpa using hma
  | cons d rest ih =>
      simp only [List.foldl_cons]
      apply ih
      rw [capsFold_apply, hma]

/-- The rebuilt index agrees pointwise with the spec's description. -/
lemma capabilityMapping_eq_lastDeclarer (devices : List Device) (x : String) :
    capabilityMapping devices x = lastDeclarer devices x := by
  unfold capabilityMapping lastDeclarer
  exact capabilityMapping_foldl devices _ none x rfl

lemma lastDeclarer_append (devices : List Device) (d : Device) (x : String) :
    lastDeclarer (devices ++ [d]) x =
      if x ∈ d.capabilities then some d.id else lastDeclarer devices x := by
  unfold lastDeclarer
  rw [List.foldl_append]
  rfl

lemma lastDeclarer_isSome (devices : List Device) (x : String) :
    (lastDeclarer devices x).isSome = true ↔
      ∃ d ∈ devices, x ∈ d.capabilities := by
  induction devices using List.reverseRecOn with
  | nil => simp [lastDeclarer]
  | append_singleton rest d ih =>
      rw [lastDeclarer_append]
      by_cases hd : x ∈ d.capabilities
      · simp only [hd, if_pos, Option.isSome_some, true_iff]
        exact ⟨d, by simp, hd⟩
      · simp only [hd, if_neg, not_false_iff, ih]
        constructor
        · rintro ⟨e, he, hx⟩
          exact ⟨e, by simp [he], hx⟩
        · rintro ⟨e, he, hx⟩
          rcases List.mem_append.mp he with he2 | he2
          · exact ⟨e, he2, hx⟩
          · rw [List.mem_singleton.mp he2] at hx
            exact absurd hx hd

lemma lastDeclarer_declares (devices : List Device) (x : String) (i : String)
    (h : lastDeclarer devices x = some i) :
    ∃ d ∈ devices, x ∈ d.capabilities ∧ d.id = i := by
  induction devices using List.reverseRecOn generalizing i with
  | nil => simp [lastDeclarer] at h
  | append_singleton rest d ih =>
      rw [lastDeclarer_append] at h
      by_cases hd : x ∈ d.capabilities
      · rw [if_pos hd] at h
        exact ⟨d, by simp, hd, Option.some_inj.mp h⟩
      · rw [if_neg hd] at h
        rcases ih i h with ⟨e, he, hx, hid⟩
        exact ⟨e, by simp [he], hx, hid⟩

/-- A translated stream event (`LivisiEvent` from the vendor library):
a type tag, a source capability id, a `properties` dict (button events) and
the optional state-change payload fields. Absent fields are `none`. -/
structure LivisiEvent where
  type : String
  source : String
  properties : List (String × Value)
  onState : Option Value
  vrccData : Option Value
  isOpen : Option Value
  luminance : Option Value
  isReachable : Option Value
deriving DecidableEq, Repr

/-- An observable side effect of the coordinator: a dispatcher publish
(`async_dispatcher_send` with topic `event_source`), a host bus event
(`hass.bus.async_fire`), or a websocket connect call with its port. -/
inductive Effect where
  | dispatch (event : String) (source : String) (payload : Value)
  | fireHostEvent (topic : String) (payload : List (String × Value))
  | wsConnect (port : Nat)
deriving DecidableEq, Repr

/-- `_async_dispatcher_send`: forwards to the host dispatcher only when the
payload is not `None`. -/
def dispatcher_send (event : String) (source : String)
    (payload : Option Value) : List Effect :=
  match payload with
  | none => []
  | some v => [Effect.dispatch event source v]

/-- `on_data`: translate one stream event into host effects. Button and
motion events resolve the source capability through the index and fire one
host bus event (dropped silently when unresolvable); state-change events
publish each non-`None` payload field, then reachability. The coordinator's
own state is returned alongside the effects. -/
def on_data (co : LivisiCoordinator) (event_data : LivisiEvent) :
    LivisiCoordinator × List Effect :=
  if event_data.type = LIVISI_EVENT_BUTTON_PRESSED then
    match co.capability_to_device event_data.source with
    | none => (co, [])
    | some device_id =>
        (co, [Effect.fireHostEvent "livisi_event"
          [("device_id", Value.str device_id),
           ("type", Value.str EVENT_BUTTON_PRESSED),
           ("button_index", dictGetD event_data.properties "index" (Value.int 0)),
           ("press_type",
             dictGetD event_data.properties "type" (Value.str "ShortPress"))]])
  else if event_data.type = LIVISI_EVENT_MOTION_DETECTED then
    match co.capability_to_device event_data.source with
    | none => (co, [])
    | some device_id =>
        (co, [Effect.fireHostEvent "livisi_event"
          [("device_id", Value.str device_id),
           ("type", Value.str EVENT_MOTION_DETECTED)]])
  else if event_data.type = LIVISI_EVENT_STATE_CHANGED then
    (co,
      dispatcher_send LIVISI_STATE_CHANGE event_data.source event_data.onState ++
      dispatcher_send LIVISI_STATE_CHANGE event_data.source event_data.vrccData ++
      dispatcher_send LIVISI_STATE_CHANGE event_data.source event_data.isOpen ++
      dispatcher_send LIVISI_STATE_CHANGE event_data.source event_data.luminance ++
      dispatcher_send LIVISI_REACHABILITY_CHANGE event_data.source
        event_data.isReachable)
  else (co, [])

/-- `ws_connect`: open the websocket on the stored port. -/
def ws_connect (co : LivisiCoordinator) : List Effect :=
  [Effect.wsConnect co.port]

/-- `on_close`: on websocket closure, publish an unreachable notification
(payload `False`) for every known device id, then reconnect on the stored
port (the same call `ws_connect` makes). -/
def on_close (co : LivisiCoordinator) : List Effect :=
  (co.devices.map (fun device_id =>
      dispatcher_send LIVISI_REACHABILITY_CHANGE device_id
        (some (Value.bool false)))).flatten
    ++ ws_connect co

/-- `async_get_device_state`: query the vendor client's state endpoint with
the capability id minus its first character. The client's response maps each
key to a `{value: ...}` record (spec interface), represented here as the
pair `(key, value)`; `response.get(key, {}).get("value")` is then the
association-list lookup. An absent response yields `none`, not an error. -/
def async_get_device_state
    (client : String → Option (List (String × Value)))
    (capability : String) (key : String) : Option Value :=
  match client (String.drop capability 1) with
  | none => none
  | some response => dictGet response key

/-- A room record from the vendor client's `get_all_rooms`:
`{id, config: {name}}`. -/
structure Room where
  id : String
  name : String
deriving DecidableEq, Repr

/-- `async_set_all_rooms`: store `config.name` under each room's id in the
existing rooms dict (the dict is not cleared first). -/
def async_set_all_rooms (co : LivisiCoordinator) (response : List Room) :
    LivisiCoordinator :=
  { co with
      rooms := response.foldl (fun m r => dictInsert m r.id r.name) co.rooms }

/-- `get_room_name`: the room display name for the device's `location`, or
`none` when the device has no location or the location is unknown. -/
def get_room_name (co : LivisiCoordinator) (device : Device) : Option String :=
  match device.location with
  | none => none
  | some room_id => co.rooms room_id

/-- One poll cycle's external world: the outcome of the first device fetch,
of a token refresh (`async_set_token`), and of a second fetch, would each
one be performed. -/
structure PollEnv where
  firstFetch : Except PyExc (List Device)
  refreshToken : Except PyExc Unit
  secondFetch : Except PyExc (List Device)

/-- A poll cycle's outcome: the returned value or raised exception, the
coordinator state afterwards, and how many refresh and fetch calls ran. -/
structure PollOutcome where
  result : Except PyExc (List Device)
  state : LivisiCoordinator
  refreshCalls : Nat
  fetchCalls : Nat

/-- `_async_update_data`: try `async_get_devices`; on `TokenExpiredException`
refresh the token and retry once — an exception raised inside that handler
propagates unchanged (a Python `except` clause does not catch exceptions
raised by a sibling handler of the same `try`); on `ClientConnectorError`
raise `UpdateFailed`; anything else propagates. -/
def async_update_data (co : LivisiCoordinator) (env : PollEnv) : PollOutcome :=
  match async_get_devices co env.firstFetch with
  | (Except.ok devices, co1) => ⟨Except.ok devices, co1, 0, 1⟩
  | (Except.error PyExc.tokenExpired, co1) =>
      match env.refreshToken with
      | Except.error e => ⟨Except.error e, co1, 1, 1⟩
      | Except.ok _ =>
          match async_get_devices co1 env.secondFetch with
          | (r, co2) => ⟨r, co2, 1, 2⟩
  | (Except.error PyExc.clientConnectorError, co1) =>
      ⟨Except.error
        (PyExc.updateFailed "Failed to get livisi devices from controller"),
        co1, 0, 1⟩
  | (Except.error e, co1) => ⟨Except.error e, co1, 0, 1⟩

/-- Modelled from the spec: the host scheduler's refresh step (the external
`DataUpdateCoordinator` base class) stores the value returned by
`_async_update_data` as the new device snapshot on success; on failure the
previous snapshot is kept. -/
def scheduler_refresh (co : LivisiCoordinator) (env : PollEnv) :
    LivisiCoordinator × Except PyExc (List Device) :=
  let out := async_update_data co env
  match out.result with
  | Except.ok devices => ({ out.state with data := devices }, Except.ok devices)
  | Except.error e => (out.state, Except.error e)

/-- Controller metadata from the vendor client's `get_controller`. -/
structure ControllerData where
  controllerType : String
  serialNumber : String
deriving DecidableEq, Repr

/-- Setup's external world: whether connection data is already cached on the
vendor client, and the outcomes of `async_set_token` and
`async_get_controller` would each one be called. -/
structure SetupEnv where
  hasConnectionData : Bool
  setTokenResult : Except PyExc Unit
  getController : Except PyExc ControllerData

/-- `async_setup`: authenticate when no connection data is cached, fetch
controller metadata, select port and extended-feature flag by controller
type, store serial number and controller type. Any failure propagates. -/
def async_setup (co : LivisiCoordinator) (env : SetupEnv) :
    Except PyExc LivisiCoordinator :=
  match (if env.hasConnectionData then Except.ok () else env.setTokenResult) with
  | Except.error e => Except.error e
  | Except.ok _ =>
      match env.getController with
      | Except.error e => Except.error e
      | Except.ok controller_data =>
          let co1 :=
            if controller_data.controllerType = AVATAR then
              { co with port := AVATAR_PORT, is_avatar := true }
            else
              { co with port := CLASSIC_PORT, is_avatar := false }
          Except.ok
            { co1 with
                controller_type := controller_data.controllerType,
                serial_number := controller_data.serialNumber }

lemma flatten_map_singleton {α β : Type} (l : List α) (f : α → β) :
    (l.map (fun x => [f x])).flatten = l.map f := by
  induction l with
  | nil => rfl
  | cons a rest ih => simp [ih]

lemma async_get_devices_ok (co : LivisiCoordinator) (D : List Device) :
    async_get_devices co (Except.ok D) =
      (Except.ok D, { co with capability_to_device := capabilityMapping D }) :=
  rfl

/-- C2: after `async_get_devices` succeeds with device list `D`, the
capability index contains exactly the capability ids declared across `D`,
each mapped to the id of a device that declares it, the later device in `D`
winning when two devices share a capability id; and the call returns `D`
itself as the new snapshot. -/
theorem C2_capability_index (co : LivisiCoordinator) (D : List Device) :
    (async_get_devices co (Except.ok D)).1 = Except.ok D ∧
    (∀ c,
      (((async_get_devices co (Except.ok D)).2.capability_to_device c).isSome
        = true) ↔ ∃ d ∈ D, c ∈ d.capabilities) ∧
    (∀ c i,
      (async_get_devices co (Except.ok D)).2.capability_to_device c = some i →
        ∃ d ∈ D, c ∈ d.capabilities ∧ d.id = i) ∧
    (∀ c,
      (async_get_devices co (Except.ok D)).2.capability_to_device c =
        lastDeclarer D c) := by
  refine ⟨rfl, ?_, ?_, ?_⟩
  · intro c
    rw [async_get_devices_ok]
    rw [show ({ co with capability_to_device := capabilityMapping D } :
        LivisiCoordinator).capability_to_device = capabilityMapping D from rfl]
    rw [capabilityMapping_eq_lastDeclarer]
    exact lastDeclarer_isSome D c
  · intro c i h
    rw [async_get_devices_ok] at h
    rw [show ({ co with capability_to_device := capabilityMapping D } :
        LivisiCoordinator).capability_to_device = capabilityMapping D from rfl]
      at h
    rw [capabilityMapping_eq_lastDeclarer] at h
    exact lastDeclarer_declares D c i h
  · intro c
    rw [async_get_devices_ok]
    exact capabilityMapping_eq_lastDeclarer D c

/-- C2 witness: a concrete two-device snapshot sharing capability id "c2";
the index resolves "c2" to the later device "d2" and "c1" to "d1". -/
theorem C2_capability_index_witness :
    (async_get_devices initCoordinator (Except.ok
      [⟨"d1", ["c1", "c2"], some "r1"⟩, ⟨"d2", ["c2"], none⟩])).1 =
      Except.ok [⟨"d1", ["c1", "c2"], some "r1"⟩, ⟨"d2", ["c2"], none⟩] ∧
    (async_get_devices initCoordinator (Except.ok
      [⟨"d1", ["c1", "c2"], some "r1"⟩,
       ⟨"d2", ["c2"], none⟩])).2.capability_to_device "c2" = some "d2" ∧
    (async_get_devices initCoordinator (Except.ok
      [⟨"d1", ["c1", "c2"], some "r1"⟩,
       ⟨"d2", ["c2"], none⟩])).2.capability_to_device "c1" = some "d1" := by
  have h := C2_capability_index initCoordinator
    [⟨"d1", ["c1", "c2"], some "r1"⟩, ⟨"d2", ["c2"], none⟩]
  refine ⟨h.1, ?_, ?_⟩
  · rw [h.2.2.2 "c2"]; rfl
  · rw [h.2.2.2 "c1"]; rfl

/-- C1 counterexample: first fetch fails token-expired, the refresh
succeeds, the retry fails with a connectivity error — the cycle raises the
connectivity error unchanged, not `UpdateFailed` as the claim states (a
Python `except` clause does not catch what a sibling handler raises). -/
theorem C1_counterexample :
    (async_update_data initCoordinator
      ⟨Except.error PyExc.tokenExpired, Except.ok (),
        Except.error PyExc.clientConnectorError⟩).result =
      Except.error PyExc.clientConnectorError ∧
    (async_update_data initCoordinator
      ⟨Except.error PyExc.tokenExpired, Except.ok (),
        Except.error PyExc.clientConnectorError⟩).result ≠
      Except.error (PyExc.updateFailed
        "Failed to get livisi devices from controller") := by
  constructor
  · rfl
  · intro h
    simp [async_update_data, async_get_devices] at h

/-- C1 (amended): if the first fetch succeeds no refresh happens and its
list is returned; if the first fetch fails token-expired, exactly one
refresh and exactly one retry happen and the retry's outcome — success or
any failure, a connectivity error included — propagates unchanged (a
failing refresh also propagates); if the first fetch fails with a
connectivity error the cycle reports `UpdateFailed`; any other failure of
the first fetch propagates unchanged. -/
theorem C1_poll_retry (co : LivisiCoordinator) (env : PollEnv) :
    (∀ D, env.firstFetch = Except.ok D →
      (async_update_data co env).result = Except.ok D ∧
      (async_update_data co env).refreshCalls = 0 ∧
      (async_update_data co env).fetchCalls = 1) ∧
    (env.firstFetch = Except.error PyExc.tokenExpired →
      env.refreshToken = Except.ok () →
      (async_update_data co env).refreshCalls = 1 ∧
      (async_update_data co env).fetchCalls = 2 ∧
      (async_update_data co env).result = env.secondFetch) ∧
    (env.firstFetch = Except.error PyExc.tokenExpired →
      ∀ e, env.refreshToken = Except.error e →
      (async_update_data co env).result = Except.error e ∧
      (async_update_data co env).refreshCalls = 1 ∧
      (async_update_data co env).fetchCalls = 1) ∧
    (env.firstFetch = Except.error PyExc.clientConnectorError →
      (async_update_data co env).result =
        Except.error (PyExc.updateFailed
          "Failed to get livisi devices from controller")) ∧
    (∀ n, env.firstFetch = Except.error (PyExc.otherExc n) →
      (async_update_data co env).result = Except.error (PyExc.otherExc n)) ∧
    (∀ m, env.firstFetch = Except.error (PyExc.updateFailed m) →
      (async_update_data co env).result =
        Except.error (PyExc.updateFailed m)) := by
  refine ⟨?_, ?_, ?_, ?_, ?_, ?_⟩
  · intro D h
    simp [async_update_data, async_get_devices, h]
  · intro h1 h2
    cases hs : env.secondFetch with
    | ok D => simp [async_update_data, async_get_devices, h1, h2, hs]
    | error e => simp [async_update_data, async_get_devices, h1, h2, hs]
  · intro h1 e h2
    simp [async_update_data, async_get_devices, h1, h2]
  · intro h
    simp [async_update_data, async_get_devices, h]
  · intro n h
    simp [async_update_data, async_get_devices, h]
  · intro m h
    simp [async_update_data, async_get_devices, h]

/-- C1 witness: token expiry on the first fetch, successful refresh and a
successful retry returning the empty list. -/
theorem C1_poll_retry_witness :
    (async_update_data initCoordinator
      ⟨Except.error PyExc.tokenExpired, Except.ok (),
        Except.ok []⟩).refreshCalls = 1 ∧
    (async_update_data initCoordinator
      ⟨Except.error PyExc.tokenExpired, Except.ok (),
        Except.ok []⟩).fetchCalls = 2 ∧
    (async_update_data initCoordinator
      ⟨Except.error PyExc.tokenExpired, Except.ok (),
        Except.ok []⟩).result = Except.ok [] :=
  (C1_poll_retry initCoordinator
    ⟨Except.error PyExc.tokenExpired, Except.ok (), Except.ok []⟩).2.1 rfl rfl

/-- C3: on stream closure every device id in the known-device set gets an
unreachable publish (reachability topic, payload `false`), every such
publish precedes the reconnect, the trace before the reconnect holds
nothing but such publishes, and the reconnect is exactly the `ws_connect`
call on the stored port — the same port as the original connection. -/
theorem C3_on_close (co : LivisiCoordinator) :
    ∃ pre, on_close co = pre ++ ws_connect co ∧
      ws_connect co = [Effect.wsConnect co.port] ∧
      (∀ d ∈ co.devices,
        Effect.dispatch LIVISI_REACHABILITY_CHANGE d (Value.bool false) ∈ pre) ∧
      (∀ eff ∈ pre, ∃ d ∈ co.devices,
        eff = Effect.dispatch LIVISI_REACHABILITY_CHANGE d (Value.bool false)) := by
  refine ⟨co.devices.map (fun d =>
    Effect.dispatch LIVISI_REACHABILITY_CHANGE d (Value.bool false)),
    ?_, rfl, ?_, ?_⟩
  · unfold on_close dispatcher_send
    rw [flatten_map_singleton]
  · intro d hd
    exact List.mem_map_of_mem _ hd
  · intro eff heff
    rcases List.mem_map.mp heff with ⟨d, hd, rfl⟩
    exact ⟨d, hd, rfl⟩

/-- C3 witness: with known devices "d1", "d2" and port 9090, the
unreachable publish for "d1" appears in the close trace and the trace ends
with the reconnect on port 9090. -/
theorem C3_on_close_witness :
    Effect.dispatch LIVISI_REACHABILITY_CHANGE "d1" (Value.bool false) ∈
      on_close { initCoordinator with devices := ["d1", "d2"], port := 9090 } ∧
    on_close { initCoordinator with devices := ["d1", "d2"], port := 9090 } =
      [Effect.dispatch LIVISI_REACHABILITY_CHANGE "d1" (Value.bool false),
       Effect.dispatch LIVISI_REACHABILITY_CHANGE "d2" (Value.bool false)] ++
      [Effect.wsConnect 9090] := by
  obtain ⟨pre, h1, h2, h3, h4⟩ :=
    C3_on_close { initCoordinator with devices := ["d1", "d2"], port := 9090 }
  constructor
  · rw [h1]
    exact List.mem_append_left _ (h3 "d1" (by simp))
  · rfl

/-- C4: a StateChanged event publishes one state-change notification keyed
by the source per populated field among on-state, cover-position data,
open/closed flag and luminance — in that order, absent fields skipped — then
one reachability notification keyed by the same source only when the
reachability flag is present; every publish carries the field's value, and
no publish is made from an absent field. -/
theorem C4_state_changed (co : LivisiCoordinator) (e : LivisiEvent)
    (h : e.type = LIVISI_EVENT_STATE_CHANGED) :
    (on_data co e).2 =
      (([e.onState, e.vrccData, e.isOpen, e.luminance].filterMap id).map
        (fun v => Effect.dispatch LIVISI_STATE_CHANGE e.source v)) ++
      (e.isReachable.toList.map
        (fun v => Effect.dispatch LIVISI_REACHABILITY_CHANGE e.source v)) := by
  have hb : ¬ (e.type = LIVISI_EVENT_BUTTON_PRESSED) := by rw [h]; decide
  have hm : ¬ (e.type = LIVISI_EVENT_MOTION_DETECTED) := by rw [h]; decide
  unfold on_data
  rw [if_neg hb, if_neg hm, if_pos h]
  cases e.onState <;> cases e.vrccData <;> cases e.isOpen <;>
    cases e.luminance <;> cases e.isReachable <;> simp [dispatcher_send]

/-- C4 witness: an event with only luminance 42 populated yields exactly one
state-change publish carrying 42 and no reachability publish. -/
theorem C4_state_changed_witness :
    (on_data initCoordinator
      ⟨LIVISI_EVENT_STATE_CHANGED, "cap1", [], none, none, none,
        some (Value.int 42), none⟩).2 =
      [Effect.dispatch LIVISI_STATE_CHANGE "cap1" (Value.int 42)] := by
  rw [C4_state_changed initCoordinator
    ⟨LIVISI_EVENT_STATE_CHANGED, "cap1", [], none, none, none,
      some (Value.int 42), none⟩ rfl]
  rfl

lemma async_update_data_state_on_error (co : LivisiCoordinator)
    (env : PollEnv) (e : PyExc)
    (h : (async_update_data co env).result = Except.error e) :
    (async_update_data co env).state = co := by
  cases hf : env.firstFetch with
  | ok D => simp [async_update_data, async_get_devices, hf] at h
  | error e1 =>
    cases e1 with
    | tokenExpired =>
        cases hr : env.refreshToken with
        | ok u =>
            cases hs : env.secondFetch with
            | ok D => simp [async_update_data, async_get_devices, hf, hr, hs] at h
            | error e2 =>
                simp [async_update_data, async_get_devices, hf, hr, hs]
        | error er => simp [async_update_data, async_get_devices, hf, hr]
    | clientConnectorError => simp [async_update_data, async_get_devices, hf]
    | updateFailed m => simp [async_update_data, async_get_devices, hf]
    | otherExc n => simp [async_update_data, async_get_devices, hf]

/-- C5: a poll cycle whose device fetch fails leaves the coordinator — the
capability index and the stored device snapshot included — exactly as it
was before the cycle; the failure is the only outcome. -/
theorem C5_stale_on_failure (co : LivisiCoordinator) (env : PollEnv)
    (e : PyExc) (h : (async_update_data co env).result = Except.error e) :
    scheduler_refresh co env = (co, Except.error e) := by
  have hst := async_update_data_state_on_error co env e h
  simp only [scheduler_refresh, h, hst]

/-- C5 witness: a connectivity failure on the fetch leaves the freshly
constructed coordinator untouched and reports the update failure. -/
theorem C5_stale_on_failure_witness :
    scheduler_refresh initCoordinator
      ⟨Except.error PyExc.clientConnectorError, Except.ok (), Except.ok []⟩ =
      (initCoordinator, Except.error (PyExc.updateFailed
        "Failed to get livisi devices from controller")) :=
  C5_stale_on_failure initCoordinator
    ⟨Except.error PyExc.clientConnectorError, Except.ok (), Except.ok []⟩
    (PyExc.updateFailed "Failed to get livisi devices from controller") rfl

/-- C6: the state query addresses the vendor client with the capability id
minus exactly its first character; a fetch yielding nothing gives the
no-value result rather than an error, and otherwise the result is the value
stored under the requested key, no-value when the key is absent. -/
theorem C6_device_state (client : String → Option (List (String × Value)))
    (capability key : String) :
    (∀ ch rest, capability.data = ch :: rest →
      (String.drop capability 1).data = rest) ∧
    (client (String.drop capability 1) = none →
      async_get_device_state client capability key = none) ∧
    (∀ response, client (String.drop capability 1) = some response →
      async_get_device_state client capability key = dictGet response key) := by
  refine ⟨?_, ?_, ?_⟩
  · intro ch rest h
    rw [String.data_drop, h]
    rfl
  · intro h
    unfold async_get_device_state
    rw [h]
  · intro response h
    unfold async_get_device_state
    rw [h]

/-- C6 witness: querying capability "cap1" strips to "ap1"; a client
holding `{key1: {value: 7}}` there yields 7, and a client holding nothing
yields the no-value result. -/
theorem C6_device_state_witness :
    (String.drop "cap1" 1).data = ['a', 'p', '1'] ∧
    async_get_device_state
      (fun s => if s = "ap1" then some [("key1", Value.int 7)] else none)
      "cap1" "key1" = some (Value.int 7) ∧
    async_get_device_state (fun _ => none) "cap1" "key1" = none := by
  refine ⟨?_, ?_, ?_⟩
  · exact (C6_device_state (fun _ => none) "cap1" "key1").1 'c' ['a', 'p', '1'] rfl
  · have h := (C6_device_state
      (fun s => if s = "ap1" then some [("key1", Value.int 7)] else none)
      "cap1" "key1").2.2 [("key1", Value.int 7)] (by rw [String.drop_eq]; rfl)
    rw [h]
    rfl
  · exact (C6_device_state (fun _ => none) "cap1" "key1").2.1 rfl

/-- C7: a ButtonPressed event whose source resolves through the capability
index fires exactly one host event carrying the resolved device id, the
button-pressed kind, the button index (0 when the `index` property is
absent) and the press type ("ShortPress" when the `type` property is
absent); an unresolvable source fires nothing and raises nothing. -/
theorem C7_button_pressed (co : LivisiCoordinator) (e : LivisiEvent)
    (h : e.type = LIVISI_EVENT_BUTTON_PRESSED) :
    (co.capability_to_device e.source = none → (on_data co e).2 = []) ∧
    (∀ device_id, co.capability_to_device e.source = some device_id →
      (on_data co e).2 =
        [Effect.fireHostEvent "livisi_event"
          [("device_id", Value.str device_id),
           ("type", Value.str EVENT_BUTTON_PRESSED),
           ("button_index", dictGetD e.properties "index" (Value.int 0)),
           ("press_type",
             dictGetD e.properties "type" (Value.str "ShortPress"))]]) ∧
    (dictGet e.properties "index" = none →
      dictGetD e.properties "index" (Value.int 0) = Value.int 0) ∧
    (dictGet e.properties "type" = none →
      dictGetD e.properties "type" (Value.str "ShortPress") =
        Value.str "ShortPress") := by
  refine ⟨?_, ?_, ?_, ?_⟩
  · intro hn
    unfold on_data
    rw [if_pos h, hn]
  · intro device_id hs
    unfold on_data
    rw [if_pos h, hs]
  · intro hn
    unfold dictGetD
    rw [hn]
    rfl
  · intro hn
    unfold dictGetD
    rw [hn]
    rfl

/-- C7 witness: with index entry "c1" ↦ "d1", a press on "c1" with index 2
and type "LongPress" fires the one host event of the spec's end-to-end
example, while a press on the unknown source "cX" fires nothing. -/
theorem C7_button_pressed_witness :
    (on_data
      { initCoordinator with
          capability_to_device := fun s => if s = "c1" then some "d1" else none }
      ⟨LIVISI_EVENT_BUTTON_PRESSED, "c1",
        [("index", Value.int 2), ("type", Value.str "LongPress")],
        none, none, none, none, none⟩).2 =
      [Effect.fireHostEvent "livisi_event"
        [("device_id", Value.str "d1"),
         ("type", Value.str EVENT_BUTTON_PRESSED),
         ("button_index", Value.int 2),
         ("press_type", Value.str "LongPress")]] ∧
    (on_data
      { initCoordinator with
          capability_to_device := fun s => if s = "c1" then some "d1" else none }
      ⟨LIVISI_EVENT_BUTTON_PRESSED, "cX", [],
        none, none, none, none, none⟩).2 = [] := by
  constructor
  · have h2 := (C7_button_pressed
      { initCoordinator with
          capability_to_device := fun s => if s = "c1" then some "d1" else none }
      ⟨LIVISI_EVENT_BUTTON_PRESSED, "c1",
        [("index", Value.int 2), ("type", Value.str "LongPress")],
        none, none, none, none, none⟩ rfl).2.1 "d1" rfl
    rw [h2]
    rfl
  · exact (C7_button_pressed
      { initCoordinator with
          capability_to_device := fun s => if s = "c1" then some "d1" else none }
      ⟨LIVISI_EVENT_BUTTON_PRESSED, "cX", [],
        none, none, none, none, none⟩ rfl).1 rfl

/-- C8: after a successful setup the avatar controller type selects the
avatar port with the extended-feature flag set, any other type selects the
classic port with the flag cleared, and the fetched serial number and
controller type are stored; a failing authentication or metadata fetch
makes setup propagate that failure — no retry, no state captured. -/
theorem C8_setup (co : LivisiCoordinator) (env : SetupEnv) :
    (∀ controller_data, env.getController = Except.ok controller_data →
      (env.hasConnectionData = true ∨ env.setTokenResult = Except.ok ()) →
      ∃ co1, async_setup co env = Except.ok co1 ∧
        co1.controller_type = controller_data.controllerType ∧
        co1.serial_number = controller_data.serialNumber ∧
        (controller_data.controllerType = AVATAR →
          co1.port = AVATAR_PORT ∧ co1.is_avatar = true) ∧
        (controller_data.controllerType ≠ AVATAR →
          co1.port = CLASSIC_PORT ∧ co1.is_avatar = false)) ∧
    (∀ e, env.hasConnectionData = false →
      env.setTokenResult = Except.error e →
      async_setup co env = Except.error e) ∧
    (∀ e, (env.hasConnectionData = true ∨ env.setTokenResult = Except.ok ()) →
      env.getController = Except.error e →
      async_setup co env = Except.error e) := by
  refine ⟨?_, ?_, ?_⟩
  · intro controller_data hc hauth
    have hstep :
        (if env.hasConnectionData then Except.ok () else env.setTokenResult) =
          (Except.ok () : Except PyExc Unit) := by
      rcases hauth with h | h
      · rw [h]
        rfl
      · rw [h]
        split <;> rfl
    by_cases hav : controller_data.controllerType = AVATAR
    · refine ⟨{ co with
          serial_number := controller_data.serialNumber,
          controller_type := controller_data.controllerType,
          is_avatar := true, port := AVATAR_PORT }, ?_, rfl, rfl,
        fun _ => ⟨rfl, rfl⟩, fun hne => absurd hav hne⟩
      simp [async_setup, hstep, hc, hav]
    · refine ⟨{ co with
          serial_number := controller_data.serialNumber,
          controller_type := controller_data.controllerType,
          is_avatar := false, port := CLASSIC_PORT }, ?_, rfl, rfl,
        fun heq => absurd heq hav, fun _ => ⟨rfl, rfl⟩⟩
      simp [async_setup, hstep, hc, hav]
  · intro e hhas hset
    simp [async_setup, hhas, hset]
  · intro e hauth hc
    have hstep :
        (if env.hasConnectionData then Except.ok () else env.setTokenResult) =
          (Except.ok () : Except PyExc Unit) := by
      rcases hauth with h | h
      · rw [h]
        rfl
      · rw [h]
        split <;> rfl
    simp [async_setup, hstep, hc]

/-- C8 witness: with no cached connection data, a successful token set and
controller metadata of the avatar type with serial "SN1", setup stores the
avatar port, the flag, the type and the serial. -/
theorem C8_setup_witness :
    (async_setup initCoordinator
      ⟨false, Except.ok (), Except.ok ⟨AVATAR, "SN1"⟩⟩).map
      (fun c => (c.port, c.is_avatar, c.controller_type, c.serial_number)) =
      Except.ok (AVATAR_PORT, true, AVATAR, "SN1") := by
  obtain ⟨co1, h1, ht, hs, hav, hcl⟩ :=
    (C8_setup initCoordinator
      ⟨false, Except.ok (), Except.ok ⟨AVATAR, "SN1"⟩⟩).1
      ⟨AVATAR, "SN1"⟩ rfl (Or.inr rfl)
  obtain ⟨hp, hf⟩ := hav rfl
  rw [h1]
  simp [Except.map, hp, hf, ht, hs]

/-- C9: the room name of a device is the registry entry for its location
when the device has a location that is registered, and the no-room result
when the location is absent or unknown; the lookup is pure, so repeating it
against an unchanged registry yields the same result. -/
theorem C9_room_name (co : LivisiCoordinator) (device : Device) :
    (device.location = none → get_room_name co device = none) ∧
    (∀ room_id name, device.location = some room_id →
      co.rooms room_id = some name → get_room_name co device = some name) ∧
    (∀ room_id, device.location = some room_id →
      co.rooms room_id = none → get_room_name co device = none) ∧
    get_room_name co device = get_room_name co device := by
  refine ⟨?_, ?_, ?_, rfl⟩
  · intro h
    unfold get_room_name
    rw [h]
  · intro room_id name hl hr
    unfold get_room_name
    rw [hl]
    exact hr
  · intro room_id hl hr
    unfold get_room_name
    rw [hl]
    exact hr

/-- C9 witness: with registry entry "r1" ↦ "Kitchen", a device located in
"r1" resolves to "Kitchen"; a device in the unknown room "r2" and a device
with no location both resolve to the no-room result. -/
theorem C9_room_name_witness :
    get_room_name
      { initCoordinator with
          rooms := fun r => if r = "r1" then some "Kitchen" else none }
      ⟨"d1", ["c1"], some "r1"⟩ = some "Kitchen" ∧
    get_room_name
      { initCoordinator with
          rooms := fun r => if r = "r1" then some "Kitchen" else none }
      ⟨"d2", [], some "r2"⟩ = none ∧
    get_room_name
      { initCoordinator with
          rooms := fun r => if r = "r1" then some "Kitchen" else none }
      ⟨"d3", [], none⟩ = none := by
  refine ⟨?_, ?_, ?_⟩
  · exact (C9_room_name
      { initCoordinator with
          rooms := fun r => if r = "r1" then some "Kitchen" else none }
      ⟨"d1", ["c1"], some "r1"⟩).2.1 "r1" "Kitchen" rfl rfl
  · exact (C9_room_name
      { initCoordinator with
          rooms := fun r => if r = "r1" then some "Kitchen" else none }
      ⟨"d2", [], some "r2"⟩).2.2.1 "r2" rfl rfl
  · exact (C9_room_name
      { initCoordinator with
          rooms := fun r => if r = "r1" then some "Kitchen" else none }
      ⟨"d3", [], none⟩).1 rfl

/-- C10: `on_data` never mutates the coordinator's state, for any event;
and an event whose type is none of ButtonPressed, MotionDetected or
StateChanged produces no effect at all — no host event, no publish. -/
theorem C10_frame (co : LivisiCoordinator) (e : LivisiEvent) :
    (on_data co e).1 = co ∧
    (e.type ≠ LIVISI_EVENT_BUTTON_PRESSED →
      e.type ≠ LIVISI_EVENT_MOTION_DETECTED →
      e.type ≠ LIVISI_EVENT_STATE_CHANGED →
      (on_data co e).2 = []) := by
  constructor
  · unfold on_data
    by_cases h1 : e.type = LIVISI_EVENT_BUTTON_PRESSED
    · rw [if_pos h1]
      cases co.capability_to_device e.source <;> rfl
    · rw [if_neg h1]
      by_cases h2 : e.type = LIVISI_EVENT_MOTION_DETECTED
      · rw [if_pos h2]
        cases co.capability_to_device e.source <;> rfl
      · rw [if_neg h2]
        by_cases h3 : e.type = LIVISI_EVENT_STATE_CHANGED
        · rw [if_pos h3]
        · rw [if_neg h3]
  · intro h1 h2 h3
    unfold on_data
    rw [if_neg h1, if_neg h2, if_neg h3]

/-- C10 witness: a "ConfigChanged" event leaves the fresh coordinator
unchanged and produces no effects. -/
theorem C10_frame_witness :
    (on_data initCoordinator
      ⟨"ConfigChanged", "c1", [], none, none, none, none, none⟩).1 =
      initCoordinator ∧
    (on_data initCoordinator
      ⟨"ConfigChanged", "c1", [], none, none, none, none, none⟩).2 = [] :=
  ⟨(C10_frame initCoordinator
      ⟨"ConfigChanged", "c1", [], none, none, none, none, none⟩).1,
   (C10_frame initCoordinator
      ⟨"ConfigChanged", "c1", [], none, none, none, none, none⟩).2
      (by decide) (by decide) (by decide)⟩
